import Mathlib

/-!
Shallow embedding of `auto_ts/models/ar_based/sarimax.py` (class `BuildSarimax`).

Series values are modelled as rationals; a series is a `List ℚ` whose position
in the list is its timestamp.  External collaborators that are not part of the
source file — the order search `find_best_pdq_or_PDQ` (param_finder.py), the
statsmodels `SARIMAX(...).fit()` estimator, and the RMSE printers from utils —
are passed to `fit` as function parameters (oracles), except where a concrete
interface is required, in which case it is modelled from the spec and marked so.
Console printing and plotting are recorded as an explicit effect trace.
-/

namespace AutoTs

/-- A float that is either finite or `np.inf` (the sentinel used by the code). -/
inductive RVal where
  | fin (q : ℚ)
  | inf
deriving DecidableEq

/-- The argument bundle of a `SARIMAX(...)` constructor call (statsmodels model
specification, unfitted): endog series, `order=(p,d,q)`, optional
`seasonal_order=(P,D,Q,s)`, and the keyword flags the source passes. -/
structure SarimaxSpec where
  endog : List ℚ
  order : Nat × Nat × Nat
  seasonal_order : Option (Nat × Nat × Nat × Option Nat)
  enforce_stationarity : Bool
  enforce_invertibility : Bool
  trend : String
  start_params : List ℚ
  simple_differencing : Bool
deriving DecidableEq

/-- The tuple returned by `find_best_pdq_or_PDQ`:
`(best_p, best_d, best_q, best_bic, seasonality)`. -/
structure SearchResult where
  best_p : Nat
  best_d : Nat
  best_q : Nat
  best_bic : RVal
  seasonality : Bool
deriving DecidableEq

/-- The argument bundle of one `find_best_pdq_or_PDQ` call site (the keyword
`verbose` is excluded: see `OrderSearchFn`). -/
structure SearchCall where
  series : List ℚ
  metric : String
  p_max : Nat
  d_max : Nat
  q_max : Nat
  non_seasonal_pdq : Option (Nat × Nat × Nat)
  seasonal_period : Option Nat
  seasonality : Bool
deriving DecidableEq

/-- Modelled from the spec: `find_best_pdq_or_PDQ` lives in
`models/ar_based/param_finder.py`, which is not part of the analysed source.
Per the spec (section 4.1) the OrderSearch contract is
`search(series, metric, pMax, dMax, qMax, fixedNonSeasonalOrder,
seasonalPeriod, seasonalMode) -> SearchResult`; it takes no verbosity input,
so an order search is any function of those arguments alone. -/
def OrderSearchFn := SearchCall → SearchResult

/-- A fitted statsmodels model (result of `SARIMAX(...).fit()`), external to
the source.  `inSample` models `model.predict(dynamic=False)` (static one-step
in-sample predictions over the train range); `mean`, `ciLower`, `ciUpper`
model the multi-step forecast distribution per future step. -/
structure FittedModel where
  spec : SarimaxSpec
  inSample : List ℚ
  mean : Nat → ℚ
  ciLower : Nat → ℚ
  ciUpper : Nat → ℚ

/-- Modelled from the spec: `FittedModel.forecast(horizon)` of the external
StatisticalEstimator (spec section 6) produces the multi-step forecast —
one point per future step, in chronological order immediately following the
training series' last timestamp.  Timestamps are positions, so the train
series occupies times `0 .. endog.length - 1` and the forecast occupies
`endog.length, endog.length + 1, ...`. -/
def FittedModel.forecast (m : FittedModel) (h : Nat) : List (Nat × ℚ) :=
  (List.range h).map (fun i => (m.spec.endog.length + i, m.mean i))

/-- Modelled from the spec: `get_forecast(h).summary_frame()` of the external
estimator — a forecast summary with point forecast plus confidence interval
per step (spec section 4.2 step 8). -/
def FittedModel.summary_frame (m : FittedModel) (h : Nat) : List (ℚ × ℚ × ℚ) :=
  (List.range h).map (fun i => (m.mean i, m.ciLower i, m.ciUpper i))

/-- Python slice `xs[:-h]` (positional row slice of a pandas frame):
empty for `h = 0` (since `-0 = 0`), otherwise the first `len - h` elements,
clamping to empty when `h ≥ len`. -/
def sliceDropLast (xs : List ℚ) (h : Nat) : List ℚ :=
  if h = 0 then [] else xs.take (xs.length - h)

/-- Python slice `xs[-h:]`: the whole list for `h = 0`, otherwise the last
`h` elements (the whole list when `h ≥ len`). -/
def sliceLast (xs : List ℚ) (h : Nat) : List ℚ :=
  if h = 0 then xs else xs.drop (xs.length - h)

/-- First component of the quadruple `fit` returns: the unfitted `bestmodel`
specification on the failure path, the fitted model on the success path. -/
inductive ModelHandle where
  | unfitted (s : SarimaxSpec)
  | fitted (m : FittedModel)

/-- Observable side effects of a `fit` run: console messages, order-search
invocations (with their full argument bundle), diagnostic/forecast plots, the
`print_static_rmse` delegation (with the exact sequences handed over), and
the model-summary print. -/
inductive Effect where
  | msg (s : String)
  | search (c : SearchCall)
  | plotDiagnostics
  | staticCall (original predicted : List ℚ) (verbose : Nat)
  | dynamicPlot
  | summaryPrint
deriving DecidableEq

/-- The constructor-argument state of a `BuildSarimax` object
(`__init__`, lines 15-27). -/
structure BuildSarimax where
  metric : String
  seasonality : Bool := false
  seasonal_period : Option Nat := none
  p_max : Nat := 12
  d_max : Nat := 2
  q_max : Nat := 12
  forecast_period : Nat := 2
  verbose : Nat := 0
deriving DecidableEq

/-- The `SARIMAX(...)` construction of the non-seasonal branch
(sarimax.py lines 54-59). -/
def bestmodelNonSeasonal (ts_train : List ℚ) (p d q : Nat) : SarimaxSpec :=
  { endog := ts_train
    order := (p, d, q)
    seasonal_order := none
    enforce_stationarity := false
    enforce_invertibility := false
    trend := "ct"
    start_params := [0, 0, 0, 1]
    simple_differencing := false }

/-- The `SARIMAX(...)` construction of the seasonal branch when the seasonal
pass confirmed seasonality (sarimax.py lines 86-91). -/
def bestmodelSeasonalConfirmed (ts_train : List ℚ) (p d q P D Q : Nat)
    (s : Option Nat) : SarimaxSpec :=
  { endog := ts_train
    order := (p, d, q)
    seasonal_order := some (P, D, Q, s)
    enforce_stationarity := false
    enforce_invertibility := false
    trend := "ct"
    start_params := [0, 0, 0, 1]
    simple_differencing := false }

/-- The `SARIMAX(...)` construction of the seasonal branch when the seasonal
pass did not confirm seasonality (sarimax.py lines 100-105). -/
def bestmodelSeasonalUnconfirmed (ts_train : List ℚ) (p d q : Nat) : SarimaxSpec :=
  { endog := ts_train
    order := (p, d, q)
    seasonal_order := none
    enforce_stationarity := false
    enforce_invertibility := false
    trend := "ct"
    start_params := [0, 0, 0, 1]
    simple_differencing := false }

/-- The quadruple returned by `fit`, together with the run's `bestmodel`
specification, the local train/test splits, and the final state of the
caller's input frame (`ts_df_after`, which the source never writes to). -/
structure FitResult where
  handle : ModelHandle
  res2_df : Option (List (ℚ × ℚ × ℚ))
  rmse : RVal
  norm_rmse : RVal
  bestspec : SarimaxSpec
  ts_train : List ℚ
  ts_test : List ℚ
  ts_df_after : List ℚ

/-- `BuildSarimax.predict` (sarimax.py lines 170-181): with no argument it
forecasts over the horizon configured at training time, otherwise over the
horizon the caller provides. -/
def BuildSarimax.predict (self : BuildSarimax) (model : FittedModel)
    (forecast_period : Option Nat) : List (Nat × ℚ) :=
  match forecast_period with
  | none => model.forecast self.forecast_period
  | some n => model.forecast n

/-- The argument bundle of the non-seasonal `find_best_pdq_or_PDQ` call
(sarimax.py lines 44-46 and 63-67, which pass identical arguments). -/
def nonSeasonalCall (self : BuildSarimax) (ts_train : List ℚ) : SearchCall :=
  ⟨ts_train, self.metric, self.p_max, self.d_max, self.q_max, none, none, false⟩

/-- The argument bundle of the seasonal `find_best_pdq_or_PDQ` call
(sarimax.py lines 69-73): the non-seasonal order found by the first pass is
fixed and the configured seasonal period is scanned. -/
def seasonalCall (self : BuildSarimax) (ts_train : List ℚ) (r1 : SearchResult) :
    SearchCall :=
  ⟨ts_train, self.metric, self.p_max, self.d_max, self.q_max,
   some (r1.best_p, r1.best_d, r1.best_q), self.seasonal_period, true⟩

/-- The order-selection phase of `fit` (sarimax.py lines 41-105): returns the
constructed `bestmodel` specification, `best_d`, `best_D` (0 when no seasonal
pass ran), and the effects emitted by the phase. -/
def searchPhase (self : BuildSarimax) (find_best : OrderSearchFn)
    (ts_train : List ℚ) : SarimaxSpec × Nat × Nat × List Effect :=
  if self.seasonality = false then
    let c1 := nonSeasonalCall self ts_train
    let r1 := find_best c1
    (bestmodelNonSeasonal ts_train r1.best_p r1.best_d r1.best_q,
     r1.best_d, 0,
     [Effect.msg "Building a Non Seasonal Model...",
      Effect.msg "Finding best Non Seasonal Parameters:",
      Effect.search c1,
      Effect.msg "Best model is: Non Seasonal SARIMAX"])
  else
    let c1 := nonSeasonalCall self ts_train
    let r1 := find_best c1
    let c2 := seasonalCall self ts_train r1
    let r2 := find_best c2
    if r2.seasonality then
      (bestmodelSeasonalConfirmed ts_train r1.best_p r1.best_d r1.best_q
         r2.best_p r2.best_d r2.best_q self.seasonal_period,
       r1.best_d, r2.best_d,
       [Effect.msg "Building a Seasonal Model...",
        Effect.msg "Finding best Non-Seasonal pdq Parameters:",
        Effect.search c1,
        Effect.msg "Finding best Seasonal PDQ Model Parameters:",
        Effect.search c2,
        Effect.msg "Best model is a Seasonal SARIMAX"])
    else
      (bestmodelSeasonalUnconfirmed ts_train r1.best_p r1.best_d r1.best_q,
       r1.best_d, r2.best_d,
       [Effect.msg "Building a Seasonal Model...",
        Effect.msg "Finding best Non-Seasonal pdq Parameters:",
        Effect.search c1,
        Effect.msg "Finding best Seasonal PDQ Model Parameters:",
        Effect.search c2,
        Effect.msg "Best model is a Non Seasonal SARIMAX"])

/-- `BuildSarimax.fit` (sarimax.py lines 30-168).  `find_best` stands for
`find_best_pdq_or_PDQ`, `estfit` for `SARIMAX(...).fit()` (`none` models a
raised numerical-estimation error, caught by the bare `except`), and
`print_dynamic_rmse` for the utils helper of the same name, which returns
`(rmse, norm_rmse)`.  The second component is the ordered effect trace. -/
def BuildSarimax.fit (self : BuildSarimax) (find_best : OrderSearchFn)
    (estfit : SarimaxSpec → Option FittedModel)
    (print_dynamic_rmse : List ℚ → List (Nat × ℚ) → List ℚ → ℚ × ℚ)
    (ts_df : List ℚ) : FitResult × List Effect :=
  let ts_train := sliceDropLast ts_df self.forecast_period
  let ts_test := sliceLast ts_df self.forecast_period
  let effSplit : List Effect :=
    if self.verbose = 1 then
      [Effect.msg "Data Set split into train and test for Cross Validation Purposes"]
    else []
  let phase := searchPhase self find_best ts_train
  let bestmodel := phase.1
  let best_d := phase.2.1
  let effSearch := phase.2.2.2
  let effHead := effSplit ++ effSearch ++
    [Effect.msg "Fitting best SARIMAX model for full data set"]
  match estfit bestmodel with
  | none =>
      ({ handle := ModelHandle.unfitted bestmodel
         res2_df := none
         rmse := RVal.inf
         norm_rmse := RVal.inf
         bestspec := bestmodel
         ts_train := ts_train
         ts_test := ts_test
         ts_df_after := ts_df },
       effHead ++
        [Effect.msg "Error: Getting Singular Matrix. Please try using other PDQ parameters or turn off Seasonality"])
  | some m =>
      let effDiag : List Effect :=
        if self.verbose = 1 then [Effect.plotDiagnostics] else []
      let y_truth := ts_train
      let y_forecasted := m.inSample
      let effStatic : List Effect :=
        if self.verbose = 1 then
          [Effect.msg "Static Forecasts:",
           Effect.staticCall (y_truth.drop best_d) (y_forecasted.drop best_d)
             self.verbose]
        else []
      let effDyn : List Effect :=
        if self.verbose = 1 then [Effect.dynamicPlot] else []
      let res2_df := m.summary_frame self.forecast_period
      let y_forecasted2 := self.predict m none
      let effSummary : List Effect :=
        if self.verbose = 1 then [Effect.summaryPrint] else []
      let rn := print_dynamic_rmse ts_test y_forecasted2 ts_train
      ({ handle := ModelHandle.fitted m
         res2_df := some res2_df
         rmse := RVal.fin rn.1
         norm_rmse := RVal.fin rn.2
         bestspec := bestmodel
         ts_train := ts_train
         ts_test := ts_test
         ts_df_after := ts_df },
       effHead ++
        [Effect.msg "Best metric"] ++ effDiag ++ effStatic ++ effDyn ++
        effSummary ++ [Effect.msg "Dynamic Period Forecast:"])

/-- The order-search invocations of an effect trace, in order. -/
def searchCallsOf (effs : List Effect) : List SearchCall :=
  effs.filterMap fun e =>
    match e with
    | Effect.search c => some c
    | _ => none

/-- The `print_static_rmse` delegations of an effect trace, in order:
each records the true sequence, the predicted sequence, and the verbosity
argument handed to the evaluator. -/
def staticCallsOf (effs : List Effect) : List (List ℚ × List ℚ × Nat) :=
  effs.filterMap fun e =>
    match e with
    | Effect.staticCall a b v => some (a, b, v)
    | _ => none

/-- The result of the first (non-seasonal) order-search pass of a seasonal
`fit` run (sarimax.py lines 63-67). -/
def seasonalPass1 (self : BuildSarimax) (fb : OrderSearchFn)
    (ts_df : List ℚ) : SearchResult :=
  fb (nonSeasonalCall self (sliceDropLast ts_df self.forecast_period))

/-- The result of the second (seasonal) order-search pass of a seasonal
`fit` run (sarimax.py lines 69-73). -/
def seasonalPass2 (self : BuildSarimax) (fb : OrderSearchFn)
    (ts_df : List ℚ) : SearchResult :=
  fb (seasonalCall self (sliceDropLast ts_df self.forecast_period)
    (seasonalPass1 self fb ts_df))

section ConcreteInstances

/-- A concrete order search used to evaluate the embedding on concrete runs:
it always selects order (1,1,0) and reports no seasonality. -/
def constSearch : OrderSearchFn := fun _ => ⟨1, 1, 0, RVal.fin 5, false⟩

/-- A concrete order search whose seasonal pass selects seasonal order
(0,1,1) (so `best_D = 1`) and confirms seasonality, while its non-seasonal
pass selects (1,1,0). -/
def seasonalSearch : OrderSearchFn := fun c =>
  if c.seasonality then ⟨0, 1, 1, RVal.fin 5, true⟩
  else ⟨1, 1, 0, RVal.fin 10, false⟩

/-- A concrete estimator that always succeeds; its in-sample predictions echo
the training series and its forecast means are zero. -/
def constEst : SarimaxSpec → Option FittedModel := fun s =>
  some ⟨s, s.endog, fun _ => 0, fun _ => 0, fun _ => 0⟩

/-- A concrete estimator that always raises a numerical-estimation error. -/
def failEst : SarimaxSpec → Option FittedModel := fun _ => none

/-- A concrete RMSE evaluator returning (0, 0). -/
def constDyn : List ℚ → List (Nat × ℚ) → List ℚ → ℚ × ℚ := fun _ _ _ => (0, 0)

/-- A sample configuration with the default horizon (2). -/
def sampleCfg : BuildSarimax := { metric := "bic" }

/-- A configuration with forecast horizon 0. -/
def cfgH0 : BuildSarimax := { metric := "bic", forecast_period := 0 }

/-- A configuration whose horizon (3) exceeds the length of the sample
series it is run on. -/
def cfgH3 : BuildSarimax := { metric := "bic", forecast_period := 3 }

/-- A seasonal configuration: period 4, horizon 1, diagnostic sink enabled. -/
def cfgSeasonal : BuildSarimax :=
  { metric := "bic", seasonality := true, seasonal_period := some 4,
    forecast_period := 1, verbose := 1 }

/-- The fitted model `constEst` returns for the `bestmodel` specification of
the `cfgSeasonal` run on the series `[1,2,3,4,5]` (the seasonal pass of
`seasonalSearch` confirms seasonal order (0,1,1)). -/
def mSeasonal : FittedModel :=
  ⟨bestmodelSeasonalConfirmed [1, 2, 3, 4] 1 1 0 0 1 1 (some 4),
   [1, 2, 3, 4], fun _ => 0, fun _ => 0, fun _ => 0⟩

end ConcreteInstances

/-! ### Shared helper lemmas about `fit` -/

@[simp] theorem searchCallsOf_nil : searchCallsOf [] = [] := rfl

@[simp] theorem searchCallsOf_cons_msg (s : String) (es : List Effect) :
    searchCallsOf (Effect.msg s :: es) = searchCallsOf es := rfl

@[simp] theorem searchCallsOf_cons_search (c : SearchCall) (es : List Effect) :
    searchCallsOf (Effect.search c :: es) = c :: searchCallsOf es := rfl

@[simp] theorem searchCallsOf_cons_plot (es : List Effect) :
    searchCallsOf (Effect.plotDiagnostics :: es) = searchCallsOf es := rfl

@[simp] theorem searchCallsOf_cons_static (a b : List ℚ) (v : Nat)
    (es : List Effect) :
    searchCallsOf (Effect.staticCall a b v :: es) = searchCallsOf es := rfl

@[simp] theorem searchCallsOf_cons_dyn (es : List Effect) :
    searchCallsOf (Effect.dynamicPlot :: es) = searchCallsOf es := rfl

@[simp] theorem searchCallsOf_cons_summary (es : List Effect) :
    searchCallsOf (Effect.summaryPrint :: es) = searchCallsOf es := rfl

@[simp] theorem searchCallsOf_append (a b : List Effect) :
    searchCallsOf (a ++ b) = searchCallsOf a ++ searchCallsOf b :=
  List.filterMap_append a b _

@[simp] theorem searchCallsOf_ite (P : Prop) [Decidable P] (a b : List Effect) :
    searchCallsOf (if P then a else b)
      = if P then searchCallsOf a else searchCallsOf b :=
  apply_ite searchCallsOf P a b

@[simp] theorem staticCallsOf_nil : staticCallsOf [] = [] := rfl

@[simp] theorem staticCallsOf_cons_msg (s : String) (es : List Effect) :
    staticCallsOf (Effect.msg s :: es) = staticCallsOf es := rfl

@[simp] theorem staticCallsOf_cons_search (c : SearchCall) (es : List Effect) :
    staticCallsOf (Effect.search c :: es) = staticCallsOf es := rfl

@[simp] theorem staticCallsOf_cons_plot (es : List Effect) :
    staticCallsOf (Effect.plotDiagnostics :: es) = staticCallsOf es := rfl

@[simp] theorem staticCallsOf_cons_static (a b : List ℚ) (v : Nat)
    (es : List Effect) :
    staticCallsOf (Effect.staticCall a b v :: es)
      = (a, b, v) :: staticCallsOf es := rfl

@[simp] theorem staticCallsOf_cons_dyn (es : List Effect) :
    staticCallsOf (Effect.dynamicPlot :: es) = staticCallsOf es := rfl

@[simp] theorem staticCallsOf_cons_summary (es : List Effect) :
    staticCallsOf (Effect.summaryPrint :: es) = staticCallsOf es := rfl

@[simp] theorem staticCallsOf_append (a b : List Effect) :
    staticCallsOf (a ++ b) = staticCallsOf a ++ staticCallsOf b :=
  List.filterMap_append a b _

@[simp] theorem staticCallsOf_ite (P : Prop) [Decidable P]
    (a b : List Effect) :
    staticCallsOf (if P then a else b)
      = if P then staticCallsOf a else staticCallsOf b :=
  apply_ite staticCallsOf P a b

theorem searchPhase_staticCalls (self : BuildSarimax) (fb : OrderSearchFn)
    (t : List ℚ) : staticCallsOf (searchPhase self fb t).2.2.2 = [] := by
  unfold searchPhase
  split
  · rfl
  · dsimp only
    split <;> rfl

theorem searchPhase_best_d (self : BuildSarimax) (fb : OrderSearchFn)
    (t : List ℚ) :
    (searchPhase self fb t).2.1 = (fb (nonSeasonalCall self t)).best_d := by
  unfold searchPhase
  split
  · rfl
  · dsimp only
    split <;> rfl

theorem searchPhase_simple_differencing (self : BuildSarimax)
    (fb : OrderSearchFn) (t : List ℚ) :
    (searchPhase self fb t).1.simple_differencing = false := by
  unfold searchPhase
  split
  · rfl
  · dsimp only
    split <;> rfl

theorem fit_bestspec (self : BuildSarimax) (fb : OrderSearchFn)
    (est : SarimaxSpec → Option FittedModel)
    (pdr : List ℚ → List (Nat × ℚ) → List ℚ → ℚ × ℚ) (ts_df : List ℚ) :
    ((self.fit fb est pdr ts_df).1).bestspec
      = (searchPhase self fb (sliceDropLast ts_df self.forecast_period)).1 := by
  unfold BuildSarimax.fit
  rcases h : est (searchPhase self fb (sliceDropLast ts_df self.forecast_period)).1
      with _ | m <;> simp [h]

theorem fit_ts_train (self : BuildSarimax) (fb : OrderSearchFn)
    (est : SarimaxSpec → Option FittedModel)
    (pdr : List ℚ → List (Nat × ℚ) → List ℚ → ℚ × ℚ) (ts_df : List ℚ) :
    ((self.fit fb est pdr ts_df).1).ts_train
      = sliceDropLast ts_df self.forecast_period := by
  unfold BuildSarimax.fit
  rcases h : est (searchPhase self fb (sliceDropLast ts_df self.forecast_period)).1
      with _ | m <;> simp [h]

theorem fit_ts_test (self : BuildSarimax) (fb : OrderSearchFn)
    (est : SarimaxSpec → Option FittedModel)
    (pdr : List ℚ → List (Nat × ℚ) → List ℚ → ℚ × ℚ) (ts_df : List ℚ) :
    ((self.fit fb est pdr ts_df).1).ts_test
      = sliceLast ts_df self.forecast_period := by
  unfold BuildSarimax.fit
  rcases h : est (searchPhase self fb (sliceDropLast ts_df self.forecast_period)).1
      with _ | m <;> simp [h]

theorem fit_ts_df_after (self : BuildSarimax) (fb : OrderSearchFn)
    (est : SarimaxSpec → Option FittedModel)
    (pdr : List ℚ → List (Nat × ℚ) → List ℚ → ℚ × ℚ) (ts_df : List ℚ) :
    ((self.fit fb est pdr ts_df).1).ts_df_after = ts_df := by
  unfold BuildSarimax.fit
  rcases h : est (searchPhase self fb (sliceDropLast ts_df self.forecast_period)).1
      with _ | m <;> simp [h]

/-! ### Claim theorems -/

/-- Claim C6: in every branch of `fit` (non-seasonal, seasonal-confirmed,
seasonal-unconfirmed), the final model construction passes
`simple_differencing = False` to the estimator, relying on the searched d/D
orders, so predictions stay in the original value scale. -/
theorem claim_C6_simple_differencing_disabled (self : BuildSarimax)
    (fb : OrderSearchFn) (est : SarimaxSpec → Option FittedModel)
    (pdr : List ℚ → List (Nat × ℚ) → List ℚ → ℚ × ℚ) (ts_df : List ℚ) :
    ((self.fit fb est pdr ts_df).1).bestspec.simple_differencing = false := by
  rw [fit_bestspec]
  exact searchPhase_simple_differencing self fb _

/-- Claim C9: `fit` never modifies the input series: on every path (including
the failure-sentinel path) the caller's frame is element-for-element the
series that was passed in. -/
theorem claim_C9_input_series_unchanged (self : BuildSarimax)
    (fb : OrderSearchFn) (est : SarimaxSpec → Option FittedModel)
    (pdr : List ℚ → List (Nat × ℚ) → List ℚ → ℚ × ℚ) (ts_df : List ℚ) :
    ((self.fit fb est pdr ts_df).1).ts_df_after = ts_df := by
  unfold BuildSarimax.fit
  rcases h : est (searchPhase self fb (sliceDropLast ts_df self.forecast_period)).1
      with _ | m <;> simp [h]

/-- Claim C10: when the seasonal pass does not confirm seasonality, the
model specification built in the seasonal-mode branch (lines 100-105) is
identical to the one the non-seasonal branch (lines 54-59) builds for the
same (p,d,q): same order, same trend, same start parameters, no seasonal
order. -/
theorem claim_C10_unconfirmed_branch_equals_non_seasonal (ts_train : List ℚ)
    (p d q : Nat) :
    bestmodelSeasonalUnconfirmed ts_train p d q
      = bestmodelNonSeasonal ts_train p d q := rfl

/-- Claim C5: `predict` with no horizon argument produces the multi-step
forecast for the horizon configured at training time, and `predict` with an
explicit horizon `n` produces exactly `n` future points in chronological
order immediately following the training series' last timestamp (positions
`len, len+1, ...` right after train positions `0 .. len-1`). -/
theorem claim_C5_predict_horizons (self : BuildSarimax) (m : FittedModel)
    (n : Nat) :
    self.predict m none = m.forecast self.forecast_period ∧
    (self.predict m (some n)).length = n ∧
    (self.predict m (some n)).map Prod.fst
      = List.range' m.spec.endog.length n := by
  refine ⟨rfl, ?_, ?_⟩
  · simp [BuildSarimax.predict, FittedModel.forecast]
  · simp only [BuildSarimax.predict, FittedModel.forecast, List.map_map,
      List.range'_eq_map_range]
    rfl

/-- Claim C1, counterexample.  The claim is false on two counts.  With
horizon 0, `fit` takes the Python slices `ts_df[:-0] = []` and
`ts_df[-0:] = ts_df`, not the claimed `series[0 : len-0] = series`.  And
with a series of length 1 and horizon 3 (`len ≤ H`), `fit` does not fail
with an insufficient-data error: it proceeds and returns a normal result
(finite rmse, a forecast frame). -/
theorem claim_C1_counterexample :
    ((cfgH0.fit constSearch constEst constDyn [1, 2]).1.ts_train = [] ∧
      List.take ([(1 : ℚ), 2].length - 0) [(1 : ℚ), 2] = [1, 2] ∧
      ([] : List ℚ) ≠ [(1 : ℚ), 2]) ∧
    ((cfgH3.fit constSearch constEst constDyn [5]).1.rmse = RVal.fin 0 ∧
      (cfgH3.fit constSearch constEst constDyn [5]).1.res2_df ≠ none) := by
  refine ⟨⟨rfl, rfl, by decide⟩, rfl, by decide⟩

/-- Claim C1, amended: whenever the horizon is positive, `fit` splits the
series into `train = series[0 : len-H]` and `test = series[len-H : len]`
(with `len-H` clamped at 0, so for `len ≤ H` the train is empty and the test
is the whole series — no insufficient-data error is raised); with horizon 0
the Python slices make the train empty and the test the whole series. -/
theorem claim_C1_amended_split (self : BuildSarimax) (fb : OrderSearchFn)
    (est : SarimaxSpec → Option FittedModel)
    (pdr : List ℚ → List (Nat × ℚ) → List ℚ → ℚ × ℚ) (ts_df : List ℚ) :
    (0 < self.forecast_period →
      ((self.fit fb est pdr ts_df).1).ts_train
          = ts_df.take (ts_df.length - self.forecast_period) ∧
      ((self.fit fb est pdr ts_df).1).ts_test
          = ts_df.drop (ts_df.length - self.forecast_period)) ∧
    (self.forecast_period = 0 →
      ((self.fit fb est pdr ts_df).1).ts_train = [] ∧
      ((self.fit fb est pdr ts_df).1).ts_test = ts_df) := by
  rw [fit_ts_train, fit_ts_test]
  constructor
  · intro h
    have h0 : self.forecast_period ≠ 0 := Nat.pos_iff_ne_zero.mp h
    simp [sliceDropLast, sliceLast, h0]
  · intro h
    simp [sliceDropLast, sliceLast, h]

/-- Claim C1, witness for the amended theorem at horizon 2 on a series of
length 5. -/
theorem claim_C1_amended_split_witness :
    0 < sampleCfg.forecast_period ∧
    ((sampleCfg.fit constSearch constEst constDyn [1, 2, 3, 4, 5]).1).ts_train
        = [(1 : ℚ), 2, 3, 4, 5].take
            ([(1 : ℚ), 2, 3, 4, 5].length - sampleCfg.forecast_period) ∧
    ((sampleCfg.fit constSearch constEst constDyn [1, 2, 3, 4, 5]).1).ts_test
        = [(1 : ℚ), 2, 3, 4, 5].drop
            ([(1 : ℚ), 2, 3, 4, 5].length - sampleCfg.forecast_period) :=
  ⟨by decide,
   (claim_C1_amended_split sampleCfg constSearch constEst constDyn
      [1, 2, 3, 4, 5]).1 (by decide)⟩

/-- Claim C2: when the final full-train fit raises a numerical-estimation
error (the estimator returns no model for the run's `bestmodel`
specification), `fit` does not propagate the error and returns the sentinel
quadruple: the unfitted model handle, no forecast frame, and +infinity for
both rmse figures. -/
theorem claim_C2_failure_sentinel (self : BuildSarimax) (fb : OrderSearchFn)
    (est : SarimaxSpec → Option FittedModel)
    (pdr : List ℚ → List (Nat × ℚ) → List ℚ → ℚ × ℚ) (ts_df : List ℚ)
    (h : est ((self.fit fb est pdr ts_df).1.bestspec) = none) :
    (self.fit fb est pdr ts_df).1.handle
        = ModelHandle.unfitted ((self.fit fb est pdr ts_df).1.bestspec) ∧
    (self.fit fb est pdr ts_df).1.res2_df = none ∧
    (self.fit fb est pdr ts_df).1.rmse = RVal.inf ∧
    (self.fit fb est pdr ts_df).1.norm_rmse = RVal.inf := by
  rw [fit_bestspec] at h
  unfold BuildSarimax.fit
  simp [h, fit_bestspec]

/-- Claim C2, witness: a run with an always-failing estimator returns the
sentinel. -/
theorem claim_C2_failure_sentinel_witness :
    failEst ((sampleCfg.fit constSearch failEst constDyn [1, 2, 3]).1.bestspec)
        = none ∧
    ((sampleCfg.fit constSearch failEst constDyn [1, 2, 3]).1.handle
        = ModelHandle.unfitted
            ((sampleCfg.fit constSearch failEst constDyn [1, 2, 3]).1.bestspec) ∧
      (sampleCfg.fit constSearch failEst constDyn [1, 2, 3]).1.res2_df = none ∧
      (sampleCfg.fit constSearch failEst constDyn [1, 2, 3]).1.rmse = RVal.inf ∧
      (sampleCfg.fit constSearch failEst constDyn [1, 2, 3]).1.norm_rmse
        = RVal.inf) :=
  ⟨rfl, claim_C2_failure_sentinel sampleCfg constSearch failEst constDyn
    [1, 2, 3] rfl⟩

/-- Claim C7: two series of equal length that agree on their first `L - H`
entries lead `fit` to the same best order and the same final model
specification — the held-out test-range values never influence order
selection or the constructed model. -/
theorem claim_C7_no_test_leakage (self : BuildSarimax) (fb : OrderSearchFn)
    (est : SarimaxSpec → Option FittedModel)
    (pdr : List ℚ → List (Nat × ℚ) → List ℚ → ℚ × ℚ) (a b : List ℚ)
    (_hlen : a.length = b.length)
    (hpre : a.take (a.length - self.forecast_period)
      = b.take (b.length - self.forecast_period)) :
    ((self.fit fb est pdr a).1).bestspec = ((self.fit fb est pdr b).1).bestspec ∧
    ((self.fit fb est pdr a).1).bestspec.order
      = ((self.fit fb est pdr b).1).bestspec.order := by
  have ht : sliceDropLast a self.forecast_period
      = sliceDropLast b self.forecast_period := by
    by_cases h : self.forecast_period = 0 <;> simp [sliceDropLast, h, hpre]
  rw [fit_bestspec, fit_bestspec, ht]
  exact ⟨rfl, rfl⟩

/-- Claim C7, witness: two length-3 series agreeing on their first entry
(horizon 2) yield the same model specification. -/
theorem claim_C7_no_test_leakage_witness :
    [(1 : ℚ), 2, 3].length = [(1 : ℚ), 20, 30].length ∧
    [(1 : ℚ), 2, 3].take ([(1 : ℚ), 2, 3].length - sampleCfg.forecast_period)
      = [(1 : ℚ), 20, 30].take
          ([(1 : ℚ), 20, 30].length - sampleCfg.forecast_period) ∧
    ((sampleCfg.fit constSearch constEst constDyn [1, 2, 3]).1).bestspec
      = ((sampleCfg.fit constSearch constEst constDyn [1, 20, 30]).1).bestspec :=
  ⟨by decide, by decide,
   (claim_C7_no_test_leakage sampleCfg constSearch constEst constDyn
      [1, 2, 3] [1, 20, 30] (by decide) (by decide)).1⟩

/-- Claim C8: the returned quadruple of `fit` (model handle, forecast frame,
rmse, normalized rmse, together with the recorded specification and splits)
is identical whatever the verbose setting: the diagnostic/plotting sink
gates no control-flow decision affecting the returned values. -/
theorem claim_C8_verbose_independent (self : BuildSarimax)
    (fb : OrderSearchFn) (est : SarimaxSpec → Option FittedModel)
    (pdr : List ℚ → List (Nat × ℚ) → List ℚ → ℚ × ℚ) (ts_df : List ℚ)
    (v1 v2 : Nat) :
    (({ self with verbose := v1 } : BuildSarimax).fit fb est pdr ts_df).1
      = (({ self with verbose := v2 } : BuildSarimax).fit fb est pdr ts_df).1 := by
  cases self with
  | mk m s sp p d q f v =>
    show ((BuildSarimax.mk m s sp p d q f v1).fit fb est pdr ts_df).1
      = ((BuildSarimax.mk m s sp p d q f v2).fit fb est pdr ts_df).1
    unfold BuildSarimax.fit
    have hsp : searchPhase (BuildSarimax.mk m s sp p d q f v2) fb
        (sliceDropLast ts_df f)
        = searchPhase (BuildSarimax.mk m s sp p d q f v1) fb
            (sliceDropLast ts_df f) := rfl
    dsimp only
    rw [hsp]
    rcases h : est (searchPhase (BuildSarimax.mk m s sp p d q f v1) fb
        (sliceDropLast ts_df f)).1 with _ | mdl <;>
      simp [h, BuildSarimax.predict]

theorem searchPhase_no_static (self : BuildSarimax) (fb : OrderSearchFn)
    (t : List ℚ) (x y : List ℚ) (v : Nat) :
    Effect.staticCall x y v ∉ (searchPhase self fb t).2.2.2 := by
  unfold searchPhase
  split
  · simp
  · dsimp only
    split <;> simp

theorem fit_searchCalls (self : BuildSarimax) (fb : OrderSearchFn)
    (est : SarimaxSpec → Option FittedModel)
    (pdr : List ℚ → List (Nat × ℚ) → List ℚ → ℚ × ℚ) (ts_df : List ℚ) :
    searchCallsOf (self.fit fb est pdr ts_df).2
      = searchCallsOf
          (searchPhase self fb (sliceDropLast ts_df self.forecast_period)).2.2.2 := by
  unfold BuildSarimax.fit
  rcases h : est (searchPhase self fb (sliceDropLast ts_df self.forecast_period)).1
      with _ | m <;> simp [h]

theorem searchPhase_seasonal (self : BuildSarimax) (fb : OrderSearchFn)
    (ts_df : List ℚ) (hs : self.seasonality = true) :
    (searchPhase self fb (sliceDropLast ts_df self.forecast_period)).1
      = (if (seasonalPass2 self fb ts_df).seasonality then
          bestmodelSeasonalConfirmed
            (sliceDropLast ts_df self.forecast_period)
            (seasonalPass1 self fb ts_df).best_p
            (seasonalPass1 self fb ts_df).best_d
            (seasonalPass1 self fb ts_df).best_q
            (seasonalPass2 self fb ts_df).best_p
            (seasonalPass2 self fb ts_df).best_d
            (seasonalPass2 self fb ts_df).best_q
            self.seasonal_period
         else
          bestmodelSeasonalUnconfirmed
            (sliceDropLast ts_df self.forecast_period)
            (seasonalPass1 self fb ts_df).best_p
            (seasonalPass1 self fb ts_df).best_d
            (seasonalPass1 self fb ts_df).best_q) ∧
    searchCallsOf
        (searchPhase self fb (sliceDropLast ts_df self.forecast_period)).2.2.2
      = [nonSeasonalCall self (sliceDropLast ts_df self.forecast_period),
         seasonalCall self (sliceDropLast ts_df self.forecast_period)
           (seasonalPass1 self fb ts_df)] := by
  unfold searchPhase
  rw [hs]
  have hp1 : seasonalPass1 self fb ts_df
      = fb (nonSeasonalCall self (sliceDropLast ts_df self.forecast_period)) := rfl
  have hp2 : seasonalPass2 self fb ts_df
      = fb (seasonalCall self (sliceDropLast ts_df self.forecast_period)
          (fb (nonSeasonalCall self (sliceDropLast ts_df self.forecast_period)))) := by
    rw [seasonalPass2, hp1]
  rw [hp1, hp2]
  rcases hflag : (fb (seasonalCall self (sliceDropLast ts_df self.forecast_period)
      (fb (nonSeasonalCall self
        (sliceDropLast ts_df self.forecast_period))))).seasonality <;>
    simp [hflag]

/-- Claim C3: with seasonality enabled, `fit` invokes the order search
exactly twice — first in non-seasonal mode with no fixed order, then in
seasonal mode with the first pass's (p,d,q) fixed and the configured
seasonal period — obtaining (P,D,Q) and a seasonality flag, and the final
model is built on the full train series with the seasonal order included if
and only if that flag is true. -/
theorem claim_C3_seasonal_two_searches (self : BuildSarimax)
    (fb : OrderSearchFn) (est : SarimaxSpec → Option FittedModel)
    (pdr : List ℚ → List (Nat × ℚ) → List ℚ → ℚ × ℚ) (ts_df : List ℚ)
    (hs : self.seasonality = true) :
    searchCallsOf (self.fit fb est pdr ts_df).2
      = [nonSeasonalCall self (sliceDropLast ts_df self.forecast_period),
         seasonalCall self (sliceDropLast ts_df self.forecast_period)
           (seasonalPass1 self fb ts_df)] ∧
    ((self.fit fb est pdr ts_df).1).bestspec
      = (if (seasonalPass2 self fb ts_df).seasonality then
          bestmodelSeasonalConfirmed
            (sliceDropLast ts_df self.forecast_period)
            (seasonalPass1 self fb ts_df).best_p
            (seasonalPass1 self fb ts_df).best_d
            (seasonalPass1 self fb ts_df).best_q
            (seasonalPass2 self fb ts_df).best_p
            (seasonalPass2 self fb ts_df).best_d
            (seasonalPass2 self fb ts_df).best_q
            self.seasonal_period
         else
          bestmodelSeasonalUnconfirmed
            (sliceDropLast ts_df self.forecast_period)
            (seasonalPass1 self fb ts_df).best_p
            (seasonalPass1 self fb ts_df).best_d
            (seasonalPass1 self fb ts_df).best_q) ∧
    ((self.fit fb est pdr ts_df).1).bestspec.seasonal_order.isSome
      = (seasonalPass2 self fb ts_df).seasonality ∧
    ((self.fit fb est pdr ts_df).1).bestspec.endog
      = sliceDropLast ts_df self.forecast_period := by
  obtain ⟨h1, h2⟩ := searchPhase_seasonal self fb ts_df hs
  refine ⟨?_, ?_, ?_, ?_⟩
  · rw [fit_searchCalls, h2]
  · rw [fit_bestspec, h1]
  · rw [fit_bestspec, h1]
    rcases hflag : (seasonalPass2 self fb ts_df).seasonality <;>
      simp [hflag, bestmodelSeasonalConfirmed, bestmodelSeasonalUnconfirmed]
  · rw [fit_bestspec, h1]
    rcases hflag : (seasonalPass2 self fb ts_df).seasonality <;>
      simp [hflag, bestmodelSeasonalConfirmed, bestmodelSeasonalUnconfirmed]

/-- Claim C3, witness: a concrete seasonal run whose seasonal pass confirms
seasonality performs the two search calls and includes the seasonal order. -/
theorem claim_C3_seasonal_two_searches_witness :
    cfgSeasonal.seasonality = true ∧
    searchCallsOf
        (cfgSeasonal.fit seasonalSearch constEst constDyn [1, 2, 3, 4, 5]).2
      = [nonSeasonalCall cfgSeasonal
           (sliceDropLast [1, 2, 3, 4, 5] cfgSeasonal.forecast_period),
         seasonalCall cfgSeasonal
           (sliceDropLast [1, 2, 3, 4, 5] cfgSeasonal.forecast_period)
           (seasonalPass1 cfgSeasonal seasonalSearch [1, 2, 3, 4, 5])] ∧
    ((cfgSeasonal.fit seasonalSearch constEst constDyn
        [1, 2, 3, 4, 5]).1).bestspec.seasonal_order.isSome
      = (seasonalPass2 cfgSeasonal seasonalSearch [1, 2, 3, 4, 5]).seasonality :=
  ⟨rfl,
   (claim_C3_seasonal_two_searches cfgSeasonal seasonalSearch constEst constDyn
      [1, 2, 3, 4, 5] rfl).1,
   (claim_C3_seasonal_two_searches cfgSeasonal seasonalSearch constEst constDyn
      [1, 2, 3, 4, 5] rfl).2.2.1⟩

/-- Claim C4, counterexample.  In a run whose final model carries the
seasonal order (0,1,1,4) — so d = 1 and D = 1 — the static-RMSE delegation
drops only the first d = 1 points of the length-4 train range (handing over
`[2,3,4]`), not the first d + D = 2 points (`[3,4]`), contradicting the
claimed "d + D when a seasonal order is used". -/
theorem claim_C4_counterexample :
    ((cfgSeasonal.fit seasonalSearch constEst constDyn
        [1, 2, 3, 4, 5]).1).bestspec.seasonal_order = some (0, 1, 1, some 4) ∧
    staticCallsOf (cfgSeasonal.fit seasonalSearch constEst constDyn
        [1, 2, 3, 4, 5]).2 = [([2, 3, 4], [2, 3, 4], 1)] ∧
    ([(2 : ℚ), 3, 4]) ≠ List.drop (1 + 1) [(1 : ℚ), 2, 3, 4] := by
  refine ⟨rfl, rfl, by decide⟩

/-- Claim C4, amended: when the final fit succeeds, `fit` computes the
static in-sample one-step predictions over the train range and — only when
verbose is 1 — drops the first `best_d` points of both the true and
predicted sequences (always the non-seasonal d, even when a seasonal order
is used) before delegating the static RMSE to the evaluator; when verbose
is not 1, no static delegation happens.  The dynamic RMSE is always
delegated, over the test range, the multi-step forecast, and the train
range. -/
theorem claim_C4_amended_static_skip (self : BuildSarimax)
    (fb : OrderSearchFn) (est : SarimaxSpec → Option FittedModel)
    (pdr : List ℚ → List (Nat × ℚ) → List ℚ → ℚ × ℚ) (ts_df : List ℚ)
    (m : FittedModel)
    (hm : est ((self.fit fb est pdr ts_df).1.bestspec) = some m) :
    ((searchPhase self fb (sliceDropLast ts_df self.forecast_period)).2.1
        = (fb (nonSeasonalCall self
            (sliceDropLast ts_df self.forecast_period))).best_d) ∧
    (self.verbose = 1 →
      staticCallsOf (self.fit fb est pdr ts_df).2
        = [((sliceDropLast ts_df self.forecast_period).drop
              (fb (nonSeasonalCall self
                (sliceDropLast ts_df self.forecast_period))).best_d,
            m.inSample.drop
              (fb (nonSeasonalCall self
                (sliceDropLast ts_df self.forecast_period))).best_d,
            self.verbose)]) ∧
    (self.verbose ≠ 1 →
      staticCallsOf (self.fit fb est pdr ts_df).2 = []) ∧
    (self.fit fb est pdr ts_df).1.rmse
      = RVal.fin (pdr (sliceLast ts_df self.forecast_period)
          (m.forecast self.forecast_period)
          (sliceDropLast ts_df self.forecast_period)).1 ∧
    (self.fit fb est pdr ts_df).1.norm_rmse
      = RVal.fin (pdr (sliceLast ts_df self.forecast_period)
          (m.forecast self.forecast_period)
          (sliceDropLast ts_df self.forecast_period)).2 := by
  rw [fit_bestspec] at hm
  have hd := searchPhase_best_d self fb (sliceDropLast ts_df self.forecast_period)
  refine ⟨hd, ?_, ?_, ?_, ?_⟩ <;>
    (unfold BuildSarimax.fit
     simp only [hm]
     first
     | (intro hv
        simp [hv, searchPhase_staticCalls, hd])
     | simp [BuildSarimax.predict])

/-- Claim C4, witness for the amended theorem: the concrete seasonal run
with verbose 1 delegates exactly one static-RMSE computation, on the
d-dropped sequences. -/
theorem claim_C4_amended_static_skip_witness :
    constEst ((cfgSeasonal.fit seasonalSearch constEst constDyn
        [1, 2, 3, 4, 5]).1.bestspec) = some mSeasonal ∧
    cfgSeasonal.verbose = 1 ∧
    staticCallsOf (cfgSeasonal.fit seasonalSearch constEst constDyn
        [1, 2, 3, 4, 5]).2 = [([2, 3, 4], [2, 3, 4], 1)] := by
  refine ⟨rfl, rfl, ?_⟩
  have h := (claim_C4_amended_static_skip cfgSeasonal seasonalSearch constEst
    constDyn [1, 2, 3, 4, 5] mSeasonal rfl).2.1 rfl
  rw [h]
  decide

end AutoTs
